import Mathlib

/-!
Shallow embedding of `src/main.py` (FastAPI service "API - Cotizador 48
Voltios") and proofs about its quote-computation pipeline.

Modelling conventions:
* Python `int` is `Int` (arbitrary precision in both).
* The float expressions `round(x * 0.19)` and `round(x * (pct / 100.0))`
  are idealized to exact arithmetic: both arguments are the rationals
  `x * 19 / 100` and `x * pct / 100`, with denominator 100, and builtin
  `round` (half to even) is modelled on the integer numerator by
  `round100`.
* `Optional[T]` is `Option T`; the Python truthiness fallback `s or d` on
  strings (where both `None` and `""` are falsy) is `orStr`.
* `date.today().strftime("%d/%m/%Y")` is an explicit `today : String`
  argument threaded into `calcular_respuesta` and the endpoints.
* `HTTPException(status_code=..., detail=...)` raised by an endpoint is the
  `Except.error` branch of the endpoint's result.
-/

namespace Cotizador

/-- Python builtin `round` (round half to even, src/main.py lines 187 and
191) applied to the exact value `num / 100`: `num / 100` here is integer
floor division (the denominator is positive) and `num % 100`, which is in
`[0, 100)`, decides the direction of rounding. -/
def round100 (num : Int) : Int :=
  if 2 * (num % 100) < 100 then num / 100
  else if 100 < 2 * (num % 100) then num / 100 + 1
  else if num / 100 % 2 = 0 then num / 100 else num / 100 + 1

/-- Python `str.lower()` as used on `servicio` and `mezcla` (ASCII-range
lowercasing, which covers every string the code compares against); the same
character map as `String.toLower`, written so it reduces in the kernel. -/
def strLower (s : String) : String := String.mk (s.data.map Char.toLower)

/-- Python `s or d` for an optional string: `None` and the empty string are
both falsy and fall back to the default `d`. -/
def orStr (o : Option String) (d : String) : String :=
  match o with
  | none => d
  | some s => if s = "" then d else s

/-- Input model `SonidoDirectoIn` (src/main.py lines 21-29).  `grabadora` is
`Optional[Union[str, int]]` in the source and is only ever used through
`str(sd.grabadora)` (line 141), so it is modelled as the resulting string. -/
structure SonidoDirectoIn where
  dias : Int := 0
  shotgun : Int := 0
  lavalier : Int := 0
  monitoreo : Int := 0
  timecode : Int := 0
  grabadora : Option String := none
  sonidista : Bool := false
  microfonista : Bool := false
deriving DecidableEq

/-- Input model `PostProduccionIn` (src/main.py lines 31-33). -/
structure PostProduccionIn where
  minutos : Int := 0
  mezcla : Option String := some "stereo"
deriving DecidableEq

/-- Input model `CotizarIn` (src/main.py lines 35-43). -/
structure CotizarIn where
  cliente : Option String := some "Cliente sin nombre"
  servicio : String
  sonido : Option SonidoDirectoIn := none
  post : Option PostProduccionIn := none
  aplicar_iva : Bool := false
  descuento_pct : Option Int := some 0
  fecha : Option String := none
  pdf_filename : Option String := none
deriving DecidableEq

/-- Output model `ItemOut` (src/main.py lines 45-50). -/
structure ItemOut where
  descripcion : String
  cantidad : Int
  duracion : String
  unitario : Int
  subtotal : Int
deriving DecidableEq

/-- Output model `CotizarOut` (src/main.py lines 52-60). -/
structure CotizarOut where
  cliente : String
  fecha : String
  items : List ItemOut
  subtotal_sd : Int
  subtotal_post : Int
  iva : Int
  descuento : Int
  total : Int
deriving DecidableEq

/-- Error raised by the endpoints, `HTTPException` (src/main.py lines 351,
359, 363). -/
structure HTTPException where
  status_code : Int
  detail : String
deriving DecidableEq

-- Price constants (src/main.py lines 77-86).
def P_SHOTGUN : Int := 150000
def P_LAVALIER : Int := 80000
def P_MONITOREO : Int := 60000
def P_TIMECODE : Int := 40000
def P_MIXPRE6 : Int := 150000
def P_MIXPRE10 : Int := 200000
def P_SONIDISTA : Int := 400000
def P_MICROFONISTA : Int := 250000
def P_POST_STEREO : Int := 300000
def P_POST_5_1 : Int := 400000

/-- Direct-sound branch of `calcular_items` (src/main.py lines 108-163): the
line items appended when `servicio ∈ ("sonido_directo", "ambos")`, in source
order, together with the accumulated `subtotal_sd`.  The source accumulates
`subtotal_sd += sub` with exactly the `sub` stored in each appended item, so
`subtotal_sd` is the sum of the `subtotal` fields of these items.  Note
`int(x or 0)` is the identity on an `int` field (`0 or 0 == 0`). -/
def sdItems (sd : SonidoDirectoIn) : List ItemOut × Int :=
  let dias := max 0 sd.dias
  let equipo : List ItemOut :=
    if dias > 0 then
      (if sd.shotgun > 0 then
        [⟨"Micrófono Shotgun", sd.shotgun, toString dias ++ " días",
          P_SHOTGUN, sd.shotgun * P_SHOTGUN * dias⟩] else []) ++
      (if sd.lavalier > 0 then
        [⟨"Sistemas inalámbricos Lavalier", sd.lavalier, toString dias ++ " días",
          P_LAVALIER, sd.lavalier * P_LAVALIER * dias⟩] else []) ++
      (if sd.monitoreo > 0 then
        [⟨"Sistemas de Monitoreo", sd.monitoreo, toString dias ++ " días",
          P_MONITOREO, sd.monitoreo * P_MONITOREO * dias⟩] else []) ++
      (if sd.timecode > 0 then
        [⟨"Sistemas Time Code", sd.timecode, toString dias ++ " días",
          P_TIMECODE, sd.timecode * P_TIMECODE * dias⟩] else []) ++
      (if (match sd.grabadora with | none => "" | some s => s) = "6" then
        [⟨"Grabadora MixPre-6", 1, toString dias ++ " días",
          P_MIXPRE6, P_MIXPRE6 * dias⟩]
       else if (match sd.grabadora with | none => "" | some s => s) = "10" then
        [⟨"Grabadora MixPre-10", 1, toString dias ++ " días",
          P_MIXPRE10, P_MIXPRE10 * dias⟩]
       else [])
    else []
  let profesional_days := if dias > 0 then dias else 1
  let crew : List ItemOut :=
    (if sd.sonidista then
      [⟨"Sonidista", 1, toString profesional_days ++ " días",
        P_SONIDISTA, P_SONIDISTA * profesional_days⟩] else []) ++
    (if sd.microfonista then
      [⟨"Microfonista", 1, toString profesional_days ++ " días",
        P_MICROFONISTA, P_MICROFONISTA * profesional_days⟩] else [])
  let its := equipo ++ crew
  (its, (its.map ItemOut.subtotal).sum)

/-- Post-production branch of `calcular_items` (src/main.py lines 165-179):
the single optional line item and the accumulated `subtotal_post`. -/
def postItems (post : PostProduccionIn) : List ItemOut × Int :=
  let minutos := max 0 post.minutos
  if minutos > 0 then
    let mezcla := strLower (orStr post.mezcla "stereo")
    let rate := if mezcla = "stereo" then P_POST_STEREO else P_POST_5_1
    let descripcion := if mezcla = "stereo" then "Postproducción Estéreo"
      else "Postproducción 5.1"
    ([⟨descripcion, 1, toString minutos ++ " min", rate, minutos * rate⟩],
     minutos * rate)
  else ([], 0)

/-- Function `calcular_items` (src/main.py lines 101-181): the line items in
source order (direct-sound items first, then the post-production item) and
the two subtotals.  `c.sonido or SonidoDirectoIn()` and
`c.post or PostProduccionIn()` are `Option.getD` with the model defaults
(a Pydantic model instance is always truthy). -/
def calcular_items (c : CotizarIn) : List ItemOut × Int × Int :=
  let sd : List ItemOut × Int :=
    if strLower c.servicio = "sonido_directo" ∨ strLower c.servicio = "ambos" then
      sdItems (c.sonido.getD {}) else ([], 0)
  let pp : List ItemOut × Int :=
    if strLower c.servicio = "postproduccion" ∨ strLower c.servicio = "ambos" then
      postItems (c.post.getD {}) else ([], 0)
  (sd.1 ++ pp.1, sd.2, pp.2)

/-- Function `calcular_respuesta` (src/main.py lines 183-217).
`int(round(total_pre * 0.19))` is `round100 (total_pre * 19)` and
`int(round(total_con_iva * (descuento_pct / 100.0)))` is
`round100 (total_con_iva * descuento_pct)` (exact-arithmetic idealization
of the float products, see the file header); `int(c.descuento_pct or 0)` is
`Option.getD 0` (both `None` and `0` yield `0`); the truthiness test
`if descuento_pct` is `≠ 0`; `date.today()` is the `today` argument. -/
def calcular_respuesta (today : String) (c : CotizarIn) : CotizarOut :=
  let r := calcular_items c
  let total_pre := r.2.1 + r.2.2
  let iva_amt : Int :=
    if c.aplicar_iva then round100 (total_pre * 19) else 0
  let total_con_iva := total_pre + iva_amt
  let descuento_pct := c.descuento_pct.getD 0
  let descuento_amt : Int :=
    if descuento_pct ≠ 0 then round100 (total_con_iva * descuento_pct) else 0
  let total_final := total_con_iva - descuento_amt
  { cliente := orStr c.cliente "Cliente sin nombre"
    fecha := orStr c.fecha today
    items := r.1
    subtotal_sd := r.2.1
    subtotal_post := r.2.2
    iva := iva_amt
    descuento := descuento_amt
    total := total_final }

/-- The `detail` of the `HTTPException` raised by both endpoints on an
invalid `servicio` (src/main.py lines 351 and 359). -/
def servicioInvalidMsg : String :=
  "servicio inválido. Usa \x27sonido_directo\x27, \x27postproduccion\x27 o \x27ambos\x27."

/-- Endpoint `cotizar_json` (src/main.py lines 347-353): reject an invalid
`servicio` with a 400 `HTTPException`, otherwise return
`calcular_respuesta`. -/
def cotizar_json (today : String) (payload : CotizarIn) :
    Except HTTPException CotizarOut :=
  if strLower payload.servicio ∉
      (["sonido_directo", "postproduccion", "ambos"] : List String) then
    .error ⟨400, servicioInvalidMsg⟩
  else
    .ok (calcular_respuesta today payload)

/-- Python integer thousands-grouping, auxiliary: input and output are digit
lists least-significant first; a comma is inserted after every third digit. -/
def commaFmtAux : List Char → List Char
  | a :: b :: c :: d :: rest => a :: b :: c :: ',' :: commaFmtAux (d :: rest)
  | l => l

/-- Python integer thousands formatting, the format spec `,` used at
src/main.py lines 287-297. -/
def commaFormat (n : Int) : String :=
  (if n < 0 then "-" else "") ++
    String.mk (commaFmtAux (toString n.natAbs).data.reverse).reverse

/-- The currency cell text used throughout the PDF table. -/
def dollars (n : Int) : String := "$" ++ commaFormat n

/-- The table `datos` (header row plus body rows) built by
`generar_pdf_bytes` (src/main.py lines 281-297), the part of the rendered
document the spec constrains; each row is its list of cell strings. -/
def pdfTableData (items : List ItemOut) (subtotal_sd subtotal_post total : Int)
    (iva_amt descuento_amt : Int) (iva_aplicado : Bool) (descuento_pct : Int) :
    List (List String) :=
  let datos := [["Descripción", "Cantidad", "Días/Min", "Valor Unitario", "Subtotal"]]
  let datos := datos ++ items.map (fun it =>
    [it.descripcion, toString it.cantidad, it.duracion,
     dollars it.unitario, dollars it.subtotal])
  let datos := datos ++ [["", "", "", "Subtotal Sonido Directo", dollars subtotal_sd]]
  let datos := datos ++ [["", "", "", "Subtotal Postproducción", dollars subtotal_post]]
  let datos := if iva_aplicado ∧ iva_amt ≠ 0 then
      datos ++ [["", "", "", "IVA (19%)", dollars iva_amt]] else datos
  let datos := if descuento_pct ≠ 0 ∧ descuento_amt ≠ 0 then
      datos ++ [["", "", "",
        "Descuento (" ++ toString descuento_pct ++ "%)",
        "-" ++ dollars descuento_amt]] else datos
  datos ++ [["", "", "", "TOTAL", dollars total]]

/-- Endpoint `cotizar_pdf` (src/main.py lines 355-388), modelled through the
document table it lays out: the `servicio` validation, the empty-items
check, then the `datos` table handed to ReportLab (the surrounding page
layout and byte serialization are outside the embedding). -/
def cotizar_pdf (today : String) (payload : CotizarIn) :
    Except HTTPException (List (List String)) :=
  if strLower payload.servicio ∉
      (["sonido_directo", "postproduccion", "ambos"] : List String) then
    .error ⟨400, servicioInvalidMsg⟩
  else
    let resp := calcular_respuesta today payload
    if resp.items = [] then
      .error ⟨400, "No hay ítems para cotizar (revisa sonido/post)."⟩
    else
      .ok (pdfTableData resp.items resp.subtotal_sd resp.subtotal_post
        resp.total resp.iva resp.descuento payload.aplicar_iva
        (payload.descuento_pct.getD 0))

/-! ## Concrete requests used by witnesses and counterexamples -/

/-- The direct-sound spec of the C2 witness request: zero days but non-zero
equipment counts, a recorder selected, and both crew flags set. -/
def sdSpecC2 : SonidoDirectoIn :=
  { dias := 0, shotgun := 3, lavalier := 2, monitoreo := 1, timecode := 4,
    grabadora := some "6", sonidista := true, microfonista := true }

/-- The C2 witness request. -/
def reqC2 : CotizarIn := { servicio := "sonido_directo", sonido := some sdSpecC2 }

/-- The concrete request of C4 (spec Scenario D). -/
def reqScenarioD : CotizarIn :=
  { servicio := "sonido_directo", sonido := some { dias := 2, shotgun := 1 },
    aplicar_iva := true, descuento_pct := some 20 }

/-- The C5 counterexample request: a 150000 quote with a 200% discount. -/
def reqC5cex : CotizarIn :=
  { servicio := "sonido_directo", sonido := some { dias := 1, shotgun := 1 },
    descuento_pct := some 200 }

/-- The C5 witness request: both branches, tax, and a 30% discount. -/
def reqC5wit : CotizarIn :=
  { servicio := "ambos",
    sonido := some { dias := 1, shotgun := 1, sonidista := true },
    post := some { minutos := 5 },
    aplicar_iva := true, descuento_pct := some 30 }

/-- The C6 counterexample request: `mezcla = "Stereo"`, which is not
literally `"stereo"`. -/
def reqC6cex : CotizarIn :=
  { servicio := "postproduccion", post := some { minutos := 10, mezcla := some "Stereo" } }

/-- The post-production spec of the C6 witness request. -/
def pSpecC6wit : PostProduccionIn := { minutos := 5, mezcla := some "5.1" }

/-- The C6 witness request. -/
def reqC6wit : CotizarIn := { servicio := "postproduccion", post := some pSpecC6wit }

/-- The post-production spec of the C7 witness request: zero minutes but an
explicit `mezcla`. -/
def pSpecC7wit : PostProduccionIn := { minutos := 0, mezcla := some "5.1" }

/-- The C7 witness request. -/
def reqC7wit : CotizarIn := { servicio := "postproduccion", post := some pSpecC7wit }

/-- The C8 witness request, with an explicit `fecha`. -/
def reqC8wit : CotizarIn :=
  { servicio := "sonido_directo", sonido := some { dias := 2, shotgun := 1 },
    fecha := some "15/06/2024" }

/-- The C10 witness request, with an upper-case `servicio`. -/
def reqC10wit : CotizarIn :=
  { servicio := "AMBOS", sonido := some { dias := 1, shotgun := 1 },
    post := some { minutos := 2 } }

/-! ## Helper lemmas -/

theorem round100_nonneg (num : Int) (h : 0 ≤ num) : 0 ≤ round100 num := by
  unfold round100
  split_ifs <;> omega

theorem round100_le (num T : Int) (h : num ≤ 100 * T) : round100 num ≤ T := by
  unfold round100
  split_ifs <;> omega

/-- With `dias ≤ 0` the equipment and recorder block of the direct-sound
branch is skipped entirely and the crew lines are priced for the sentinel
`profesional_days = 1`. -/
theorem sdItems_dias_nonpos (sd : SonidoDirectoIn) (hdias : sd.dias ≤ 0) :
    sdItems sd =
      ((if sd.sonidista then
          [⟨"Sonidista", 1, "1 días", P_SONIDISTA, P_SONIDISTA⟩] else []) ++
        (if sd.microfonista then
          [⟨"Microfonista", 1, "1 días", P_MICROFONISTA, P_MICROFONISTA⟩] else []),
       (if sd.sonidista then P_SONIDISTA else 0) +
         (if sd.microfonista then P_MICROFONISTA else 0)) := by
  unfold sdItems
  rw [max_eq_left hdias]
  cases hso : sd.sonidista <;> cases hmi : sd.microfonista <;> simp <;> decide

/-- Membership in a conditional singleton list yields the condition and the
equation. -/
theorem mem_ite_singleton {P : Prop} [Decidable P] {x it : ItemOut}
    (h : it ∈ (if P then [x] else ([] : List ItemOut))) : P ∧ it = x := by
  split_ifs at h with hp
  · exact ⟨hp, List.mem_singleton.mp h⟩
  · simp at h

/-- Membership in a two-way conditional singleton list (the recorder
`if`/`elif`) yields one of the two equations. -/
theorem mem_ite_ite_singleton {P Q : Prop} [Decidable P] [Decidable Q] {x y it : ItemOut}
    (h : it ∈ (if P then [x] else if Q then [y] else ([] : List ItemOut))) :
    it = x ∨ it = y := by
  split_ifs at h <;> simp_all

/-- Every direct-sound line item has a non-negative unit price and total. -/
theorem sdItems_mem_nonneg (sd : SonidoDirectoIn) :
    ∀ it ∈ (sdItems sd).1, 0 ≤ it.unitario ∧ 0 ≤ it.subtotal := by
  simp only [sdItems]
  refine List.forall_mem_append.mpr ⟨?_, List.forall_mem_append.mpr ⟨?_, ?_⟩⟩
  · intro it hit
    by_cases hdias : (0 : Int) ⊔ sd.dias > 0
    · rw [if_pos hdias] at hit
      simp only [List.mem_append, or_assoc] at hit
      rcases hit with h | h | h | h | h
      · obtain ⟨hc, rfl⟩ := mem_ite_singleton h
        refine ⟨?_, mul_nonneg (mul_nonneg hc.le (by decide)) hdias.le⟩
        show (0 : Int) ≤ P_SHOTGUN
        decide
      · obtain ⟨hc, rfl⟩ := mem_ite_singleton h
        refine ⟨?_, mul_nonneg (mul_nonneg hc.le (by decide)) hdias.le⟩
        show (0 : Int) ≤ P_LAVALIER
        decide
      · obtain ⟨hc, rfl⟩ := mem_ite_singleton h
        refine ⟨?_, mul_nonneg (mul_nonneg hc.le (by decide)) hdias.le⟩
        show (0 : Int) ≤ P_MONITOREO
        decide
      · obtain ⟨hc, rfl⟩ := mem_ite_singleton h
        refine ⟨?_, mul_nonneg (mul_nonneg hc.le (by decide)) hdias.le⟩
        show (0 : Int) ≤ P_TIMECODE
        decide
      · rcases mem_ite_ite_singleton h with rfl | rfl
        · refine ⟨?_, mul_nonneg (by decide) hdias.le⟩
          show (0 : Int) ≤ P_MIXPRE6
          decide
        · refine ⟨?_, mul_nonneg (by decide) hdias.le⟩
          show (0 : Int) ≤ P_MIXPRE10
          decide
    · rw [if_neg hdias] at hit
      simp at hit
  · intro it hit
    obtain ⟨_, rfl⟩ := mem_ite_singleton hit
    refine ⟨?_, mul_nonneg (by decide) ?_⟩
    · show (0 : Int) ≤ P_SONIDISTA
      decide
    · split_ifs with h
      · exact le_of_lt h
      · decide
  · intro it hit
    obtain ⟨_, rfl⟩ := mem_ite_singleton hit
    refine ⟨?_, mul_nonneg (by decide) ?_⟩
    · show (0 : Int) ≤ P_MICROFONISTA
      decide
    · split_ifs with h
      · exact le_of_lt h
      · decide

theorem sdItems_subtotal_nonneg (sd : SonidoDirectoIn) : 0 ≤ (sdItems sd).2 := by
  have h := sdItems_mem_nonneg sd
  have e : (sdItems sd).2 = ((sdItems sd).1.map ItemOut.subtotal).sum := rfl
  rw [e]
  apply List.sum_nonneg
  intro x hx
  rcases List.mem_map.mp hx with ⟨it, hit, rfl⟩
  exact (h it hit).2

/-- The post-production line item has a non-negative unit price and total. -/
theorem postItems_mem_nonneg (p : PostProduccionIn) :
    ∀ it ∈ (postItems p).1, 0 ≤ it.unitario ∧ 0 ≤ it.subtotal := by
  intro it hit
  simp only [postItems] at hit
  split_ifs at hit with hm hst
  · simp only [List.mem_singleton] at hit
    subst hit
    refine ⟨?_, mul_nonneg (le_max_left 0 p.minutos) (by decide)⟩
    show (0 : Int) ≤ P_POST_STEREO
    decide
  · simp only [List.mem_singleton] at hit
    subst hit
    refine ⟨?_, mul_nonneg (le_max_left 0 p.minutos) (by decide)⟩
    show (0 : Int) ≤ P_POST_5_1
    decide
  · simp at hit

theorem postItems_subtotal_nonneg (p : PostProduccionIn) : 0 ≤ (postItems p).2 := by
  simp only [postItems]
  split_ifs with hm hst
  · exact mul_nonneg (le_max_left 0 p.minutos) (by decide)
  · exact mul_nonneg (le_max_left 0 p.minutos) (by decide)
  · exact le_refl 0

theorem calcular_items_mem_nonneg (c : CotizarIn) :
    ∀ it ∈ (calcular_items c).1, 0 ≤ it.unitario ∧ 0 ≤ it.subtotal := by
  intro it hit
  simp only [calcular_items, List.mem_append, apply_ite Prod.fst] at hit
  rcases hit with h | h
  · split_ifs at h with hs
    · exact sdItems_mem_nonneg _ it h
    · simp at h
  · split_ifs at h with hs
    · exact postItems_mem_nonneg _ it h
    · simp at h

theorem calcular_items_sd_nonneg (c : CotizarIn) : 0 ≤ (calcular_items c).2.1 := by
  simp only [calcular_items, apply_ite Prod.snd]
  split_ifs with hs
  · exact sdItems_subtotal_nonneg _
  · exact le_refl 0

theorem calcular_items_post_nonneg (c : CotizarIn) : 0 ≤ (calcular_items c).2.2 := by
  simp only [calcular_items, apply_ite Prod.snd]
  split_ifs with hs
  · exact postItems_subtotal_nonneg _
  · exact le_refl 0

/-- A zero (or absent) `descuento_pct` yields a zero computed discount. -/
theorem descuento_zero_of_pct_zero (today : String) (c : CotizarIn)
    (h : c.descuento_pct.getD 0 = 0) : (calcular_respuesta today c).descuento = 0 := by
  unfold calcular_respuesta
  simp [h]

/-- Replacing `servicio` by any string with the same lowercasing leaves the
computed quote unchanged: the pipeline reads `servicio` only through
`strLower`. -/
theorem calcular_respuesta_servicio_congr (today : String) (c : CotizarIn) (s : String)
    (h : strLower s = strLower c.servicio) :
    calcular_respuesta today { c with servicio := s } = calcular_respuesta today c := by
  obtain ⟨cl, sv, so, po, iva, pct, fe, pdf⟩ := c
  simp only [calcular_respuesta, calcular_items] at h ⊢
  simp only [h]
/-! ## Claim theorems -/

/-- C1: for every request, `calcular_respuesta` applies the discount after
tax: the tax is `round` of 19% of the pre-tax total (when `aplicar_iva` is
set, else 0), the discount is `round` of `descuento_pct`% of the
tax-inclusive total `total_pre + iva` — not of the pre-tax subtotal — (when
`descuento_pct` is non-zero, else 0), and the grand total is the
tax-inclusive total minus the discount. -/
theorem discount_applied_after_tax (today : String) (c : CotizarIn) :
    (calcular_respuesta today c).iva =
      (if c.aplicar_iva then
        round100 (((calcular_items c).2.1 + (calcular_items c).2.2) * 19) else 0) ∧
    (calcular_respuesta today c).descuento =
      (if c.descuento_pct.getD 0 ≠ 0 then
        round100 ((((calcular_items c).2.1 + (calcular_items c).2.2) +
          (calcular_respuesta today c).iva) * c.descuento_pct.getD 0) else 0) ∧
    (calcular_respuesta today c).total =
      ((calcular_items c).2.1 + (calcular_items c).2.2) +
        (calcular_respuesta today c).iva - (calcular_respuesta today c).descuento :=
  ⟨rfl, rfl, rfl⟩

/-- C2: when the request includes direct sound and its direct-sound spec has
`dias ≤ 0` (zero, or negative which clamps to zero), no equipment line item
(shotgun, lavalier, monitor, timecode) and no recorder line item is
produced, regardless of the counts and recorder selection; the sound
engineer (400000) and boom operator (250000) lines still appear, when their
flags are set, priced for `profesional_days = 1`. -/
theorem dias_zero_only_crew_lines (c : CotizarIn) (sd : SonidoDirectoIn)
    (hsd : c.sonido = some sd) (hdias : sd.dias ≤ 0)
    (hs : strLower c.servicio = "sonido_directo" ∨ strLower c.servicio = "ambos") :
    (calcular_items c).1 =
      ((if sd.sonidista then
          [⟨"Sonidista", 1, "1 días", P_SONIDISTA, P_SONIDISTA⟩] else []) ++
        (if sd.microfonista then
          [⟨"Microfonista", 1, "1 días", P_MICROFONISTA, P_MICROFONISTA⟩] else []))
      ++ (if strLower c.servicio = "postproduccion" ∨ strLower c.servicio = "ambos"
            then (postItems (c.post.getD {})).1 else []) := by
  simp only [calcular_items, hsd, Option.getD_some, if_pos hs, apply_ite Prod.fst]
  rw [congrArg Prod.fst (sdItems_dias_nonpos sd hdias)]

/-- Witness for C2: only the two crew lines are produced, priced for one
day. -/
theorem dias_zero_only_crew_lines_witness :
    (calcular_items reqC2).1 =
      [⟨"Sonidista", 1, "1 días", 400000, 400000⟩,
       ⟨"Microfonista", 1, "1 días", 250000, 250000⟩] := by
  rw [dias_zero_only_crew_lines reqC2 sdSpecC2 rfl (by decide) (Or.inl (by decide))]
  decide

/-- C3: a request whose `servicio` (lowercased) is none of the three
recognized values is rejected by both endpoints with a 400 error carrying
the descriptive message, and no quote is computed. -/
theorem invalid_servicio_rejected (today : String) (c : CotizarIn)
    (h : strLower c.servicio ∉
      (["sonido_directo", "postproduccion", "ambos"] : List String)) :
    cotizar_json today c = .error ⟨400, servicioInvalidMsg⟩ ∧
    cotizar_pdf today c = .error ⟨400, servicioInvalidMsg⟩ := by
  unfold cotizar_json cotizar_pdf
  rw [if_pos h, if_pos h]
  exact ⟨rfl, rfl⟩

/-- Witness for C3 at the unrecognized `servicio = "video"`. -/
theorem invalid_servicio_rejected_witness :
    cotizar_json "01/01/2025" { servicio := "video" } =
        .error ⟨400, servicioInvalidMsg⟩ ∧
      cotizar_pdf "01/01/2025" { servicio := "video" } =
        .error ⟨400, servicioInvalidMsg⟩ :=
  invalid_servicio_rejected "01/01/2025" { servicio := "video" } (by decide)

/-- C4: Scenario D computes one shotgun line of 300000, tax 57000 (so the
tax-inclusive total is 300000 + 57000 = 357000), discount 71400 and grand
total 285600. -/
theorem scenario_d_totals :
    calcular_respuesta "01/01/2025" reqScenarioD =
      { cliente := "Cliente sin nombre", fecha := "01/01/2025",
        items := [⟨"Micrófono Shotgun", 1, "2 días", 150000, 300000⟩],
        subtotal_sd := 300000, subtotal_post := 0, iva := 57000,
        descuento := 71400, total := 285600 } ∧
    300000 + 57000 = 357000 := by
  exact ⟨by decide, by decide⟩

/-- C5 counterexample: the claim fails for `descuento_pct = 200` — a quote
of 150000 gets a 300000 discount, so the grand total is negative. -/
theorem currency_nonneg_counterexample :
    (calcular_respuesta "01/01/2025" reqC5cex).total < 0 := by decide

/-- C5 (amended): for every request whose `descuento_pct` lies in `[0, 100]`
(in particular for the values 0/10/20/30 the spec names), every currency
field of the computed quote — each line item unit price and total, both
subtotals, the tax, the discount, and the grand total — is non-negative.
The original claim, quantifying over any integer `descuento_pct`, is false
(see the counterexample). -/
theorem currency_fields_nonneg (today : String) (c : CotizarIn)
    (h0 : 0 ≤ c.descuento_pct.getD 0) (h100 : c.descuento_pct.getD 0 ≤ 100) :
    (∀ it ∈ (calcular_respuesta today c).items, 0 ≤ it.unitario ∧ 0 ≤ it.subtotal) ∧
    0 ≤ (calcular_respuesta today c).subtotal_sd ∧
    0 ≤ (calcular_respuesta today c).subtotal_post ∧
    0 ≤ (calcular_respuesta today c).iva ∧
    0 ≤ (calcular_respuesta today c).descuento ∧
    0 ≤ (calcular_respuesta today c).total := by
  have hsd := calcular_items_sd_nonneg c
  have hpp := calcular_items_post_nonneg c
  have hpre : 0 ≤ (calcular_items c).2.1 + (calcular_items c).2.2 := add_nonneg hsd hpp
  have hiva : 0 ≤ (calcular_respuesta today c).iva := by
    show 0 ≤ if c.aplicar_iva then
      round100 (((calcular_items c).2.1 + (calcular_items c).2.2) * 19) else 0
    split_ifs
    · exact round100_nonneg _ (mul_nonneg hpre (by decide))
    · exact le_refl 0
  have hT : 0 ≤ (calcular_items c).2.1 + (calcular_items c).2.2 +
      (calcular_respuesta today c).iva := add_nonneg hpre hiva
  have hdesc : 0 ≤ (calcular_respuesta today c).descuento := by
    show 0 ≤ if c.descuento_pct.getD 0 ≠ 0 then
      round100 (((calcular_items c).2.1 + (calcular_items c).2.2 +
        (calcular_respuesta today c).iva) * c.descuento_pct.getD 0) else 0
    split_ifs
    · exact round100_nonneg _ (mul_nonneg hT h0)
    · exact le_refl 0
  have hdle : (calcular_respuesta today c).descuento ≤
      (calcular_items c).2.1 + (calcular_items c).2.2 +
        (calcular_respuesta today c).iva := by
    show (if c.descuento_pct.getD 0 ≠ 0 then
      round100 (((calcular_items c).2.1 + (calcular_items c).2.2 +
        (calcular_respuesta today c).iva) * c.descuento_pct.getD 0) else 0) ≤ _
    split_ifs
    · refine round100_le _ _ ?_
      calc ((calcular_items c).2.1 + (calcular_items c).2.2 +
            (calcular_respuesta today c).iva) * c.descuento_pct.getD 0
          ≤ ((calcular_items c).2.1 + (calcular_items c).2.2 +
            (calcular_respuesta today c).iva) * 100 := by
            exact mul_le_mul_of_nonneg_left h100 hT
        _ = 100 * ((calcular_items c).2.1 + (calcular_items c).2.2 +
            (calcular_respuesta today c).iva) := mul_comm _ _
    · exact hT
  refine ⟨calcular_items_mem_nonneg c, hsd, hpp, hiva, hdesc, ?_⟩
  show 0 ≤ (calcular_items c).2.1 + (calcular_items c).2.2 +
    (calcular_respuesta today c).iva - (calcular_respuesta today c).descuento
  omega

/-- Witness for the amended C5 at a request exercising both branches, tax
and a 30% discount. -/
theorem currency_fields_nonneg_witness :
    0 ≤ (calcular_respuesta "01/01/2025" reqC5wit).subtotal_sd ∧
    0 ≤ (calcular_respuesta "01/01/2025" reqC5wit).subtotal_post ∧
    0 ≤ (calcular_respuesta "01/01/2025" reqC5wit).iva ∧
    0 ≤ (calcular_respuesta "01/01/2025" reqC5wit).descuento ∧
    0 ≤ (calcular_respuesta "01/01/2025" reqC5wit).total :=
  (currency_fields_nonneg "01/01/2025" reqC5wit (by decide) (by decide)).2

/-- C6 counterexample: the claim says any `mezcla` other than literally
`"stereo"` is priced at 400000 per minute; but for `mezcla = "Stereo"`
(which differs from `"stereo"`) the code lowercases first and prices at the
stereo rate 300000. -/
theorem post_rate_counterexample :
    (calcular_items reqC6cex).1 =
      [⟨"Postproducción Estéreo", 1, "10 min", 300000, 3000000⟩] ∧
    ("Stereo" : String) ≠ "stereo" :=
  ⟨by decide, by decide⟩

/-- C6 (amended): when the service includes post-production and
`minutos > 0`, exactly one post-production line item is produced, priced
`minutos × rate`, where the rate is 300000 per minute when the mix format —
after defaulting (`None`/`""` → `"stereo"`) and lowercasing — equals
`"stereo"`, and 400000 per minute otherwise.  (The original claim required
the comparison to be against the literal `"stereo"` value, without
lowercasing; see the counterexample.) -/
theorem post_line_rate (c : CotizarIn) (p : PostProduccionIn)
    (hp : c.post = some p) (hm : 0 < p.minutos)
    (hs : strLower c.servicio = "postproduccion" ∨ strLower c.servicio = "ambos") :
    (calcular_items c).1 =
      (if strLower c.servicio = "sonido_directo" ∨ strLower c.servicio = "ambos"
        then (sdItems (c.sonido.getD {})).1 else [])
      ++ [⟨(if strLower (orStr p.mezcla "stereo") = "stereo"
             then "Postproducción Estéreo" else "Postproducción 5.1"), 1,
           toString p.minutos ++ " min",
           (if strLower (orStr p.mezcla "stereo") = "stereo"
             then P_POST_STEREO else P_POST_5_1),
           p.minutos * (if strLower (orStr p.mezcla "stereo") = "stereo"
             then P_POST_STEREO else P_POST_5_1)⟩] ∧
    (calcular_items c).2.2 =
      p.minutos * (if strLower (orStr p.mezcla "stereo") = "stereo"
        then P_POST_STEREO else P_POST_5_1) := by
  have hmax : (0 : Int) ⊔ p.minutos = p.minutos := max_eq_right hm.le
  have h1 : (postItems p).1 =
      [⟨(if strLower (orStr p.mezcla "stereo") = "stereo"
          then "Postproducción Estéreo" else "Postproducción 5.1"), 1,
        toString p.minutos ++ " min",
        (if strLower (orStr p.mezcla "stereo") = "stereo"
          then P_POST_STEREO else P_POST_5_1),
        p.minutos * (if strLower (orStr p.mezcla "stereo") = "stereo"
          then P_POST_STEREO else P_POST_5_1)⟩] := by
    simp only [postItems, hmax, if_pos hm]
  have h2 : (postItems p).2 =
      p.minutos * (if strLower (orStr p.mezcla "stereo") = "stereo"
        then P_POST_STEREO else P_POST_5_1) := by
    simp only [postItems, hmax, if_pos hm]
  constructor
  · simp only [calcular_items, hp, Option.getD_some, apply_ite Prod.fst, if_pos hs, h1]
  · simp only [calcular_items, hp, Option.getD_some, apply_ite Prod.snd, if_pos hs, h2]

/-- Witness for the amended C6 at `mezcla = "5.1"`, 5 minutes. -/
theorem post_line_rate_witness :
    (calcular_items reqC6wit).1 =
      [⟨"Postproducción 5.1", 1, "5 min", 400000, 2000000⟩] ∧
    (calcular_items reqC6wit).2.2 = 2000000 := by
  have h := post_line_rate reqC6wit pSpecC6wit rfl (by decide) (Or.inl (by decide))
  constructor
  · rw [h.1]
    decide
  · rw [h.2]
    decide

/-- C7: when the post-production spec is absent or has `minutos ≤ 0`, no
post-production line item is produced (the items are exactly the
direct-sound branch items) even if `mezcla` is set, and the post-production
subtotal is 0. -/
theorem no_post_line_when_no_minutes (c : CotizarIn)
    (h : c.post = none ∨ ∃ p, c.post = some p ∧ p.minutos ≤ 0) :
    (calcular_items c).1 =
      (if strLower c.servicio = "sonido_directo" ∨ strLower c.servicio = "ambos"
        then (sdItems (c.sonido.getD {})).1 else []) ∧
    (calcular_items c).2.2 = 0 := by
  have hpost : postItems (c.post.getD {}) = ([], 0) := by
    rcases h with h | ⟨p, hp, hm⟩
    · rw [h]
      rfl
    · rw [hp]
      simp only [Option.getD_some, postItems]
      rw [max_eq_left hm]
      norm_num
  have h1 : (postItems (c.post.getD {})).1 = [] := by rw [hpost]
  have h2 : (postItems (c.post.getD {})).2 = 0 := by rw [hpost]
  constructor
  · simp only [calcular_items, apply_ite Prod.fst, h1, ite_self, List.append_nil]
  · simp only [calcular_items, apply_ite Prod.snd, h2, ite_self]

/-- Witness for C7 at `minutos = 0` with an explicit `mezcla = "5.1"`. -/
theorem no_post_line_when_no_minutes_witness :
    (calcular_items reqC7wit).1 = [] ∧ (calcular_items reqC7wit).2.2 = 0 := by
  have h := no_post_line_when_no_minutes reqC7wit (Or.inr ⟨pSpecC7wit, rfl, by decide⟩)
  refine ⟨?_, h.2⟩
  rw [h.1]
  decide

/-- C8: the quote computation is deterministic — it has no hidden inputs
besides the current date, and when the request carries an explicit
(non-empty) `fecha` the result does not depend on the current date at all,
so two calls with an identical request yield identical `CotizarOut` values
whenever they are made. -/
theorem compute_deterministic (t₁ t₂ : String) (c : CotizarIn) (d : String)
    (hd : c.fecha = some d) (hne : d ≠ "") :
    calcular_respuesta t₁ c = calcular_respuesta t₂ c := by
  unfold calcular_respuesta
  simp only [orStr, hd, if_neg hne]

/-- Witness for C8: the same request evaluated on two different days. -/
theorem compute_deterministic_witness :
    calcular_respuesta "01/01/2025" reqC8wit = calcular_respuesta "31/12/2030" reqC8wit :=
  compute_deterministic "01/01/2025" "31/12/2030" reqC8wit "15/06/2024" rfl (by decide)

/-- C9: for every computed quote, the document table is the header row, one
row per line item, then the summary rows in this exact order: direct-sound
subtotal, post-production subtotal, a tax row exactly when tax was applied
and the tax amount is non-zero, a discount row exactly when the discount is
non-zero (shown negated, with the percentage in its label), and the grand
total. -/
theorem pdf_table_rows (today : String) (c : CotizarIn) :
    pdfTableData (calcular_respuesta today c).items
        (calcular_respuesta today c).subtotal_sd
        (calcular_respuesta today c).subtotal_post
        (calcular_respuesta today c).total
        (calcular_respuesta today c).iva
        (calcular_respuesta today c).descuento
        c.aplicar_iva (c.descuento_pct.getD 0) =
      [["Descripción", "Cantidad", "Días/Min", "Valor Unitario", "Subtotal"]]
        ++ (calcular_respuesta today c).items.map (fun it =>
              [it.descripcion, toString it.cantidad, it.duracion,
               dollars it.unitario, dollars it.subtotal])
        ++ [["", "", "", "Subtotal Sonido Directo",
              dollars (calcular_respuesta today c).subtotal_sd]]
        ++ [["", "", "", "Subtotal Postproducción",
              dollars (calcular_respuesta today c).subtotal_post]]
        ++ (if c.aplicar_iva ∧ (calcular_respuesta today c).iva ≠ 0
              then [["", "", "", "IVA (19%)",
                dollars (calcular_respuesta today c).iva]] else [])
        ++ (if (calcular_respuesta today c).descuento ≠ 0
              then [["", "", "",
                "Descuento (" ++ toString (c.descuento_pct.getD 0) ++ "%)",
                "-" ++ dollars (calcular_respuesta today c).descuento]] else [])
        ++ [["", "", "", "TOTAL", dollars (calcular_respuesta today c).total]] := by
  have key : (c.descuento_pct.getD 0 ≠ 0 ∧ (calcular_respuesta today c).descuento ≠ 0) ↔
      ((calcular_respuesta today c).descuento ≠ 0) := by
    constructor
    · exact fun h => h.2
    · intro h
      refine ⟨fun h0 => h (descuento_zero_of_pct_zero today c h0), h⟩
  unfold pdfTableData
  simp only [key]
  split_ifs <;> simp [List.append_assoc]

/-- C10: `servicio` matching is case-insensitive — whenever the lowercased
`servicio` is one of the three recognized values, `cotizar_json` does not
fail (it returns a quote) and returns exactly the quote of the request with
`servicio` replaced by its lowercase form, because the value is lowercased
before both the validation and the branch selection. -/
theorem servicio_case_insensitive (today : String) (c : CotizarIn)
    (h : strLower c.servicio ∈ (["sonido_directo", "postproduccion", "ambos"] : List String)) :
    (∃ out, cotizar_json today c = .ok out) ∧
    cotizar_json today c = cotizar_json today { c with servicio := strLower c.servicio } := by
  have hlow : strLower (strLower c.servicio) = strLower c.servicio := by
    simp only [List.mem_cons, List.mem_singleton, List.not_mem_nil, or_false] at h
    rcases h with h1 | h1 | h1 <;> rw [h1] <;> decide
  have hmem1 : ¬ (strLower c.servicio ∉
      (["sonido_directo", "postproduccion", "ambos"] : List String)) := fun hn => hn h
  have hmem2 : ¬ (strLower ({ c with servicio := strLower c.servicio } : CotizarIn).servicio ∉
      (["sonido_directo", "postproduccion", "ambos"] : List String)) := by
    show ¬ (strLower (strLower c.servicio) ∉ _)
    rw [hlow]
    exact fun hn => hn h
  constructor
  · refine ⟨calcular_respuesta today c, ?_⟩
    unfold cotizar_json
    rw [if_neg hmem1]
  · unfold cotizar_json
    rw [if_neg hmem1, if_neg hmem2,
      calcular_respuesta_servicio_congr today c (strLower c.servicio) hlow]

/-- Witness for C10 at `servicio = "AMBOS"`. -/
theorem servicio_case_insensitive_witness :
    cotizar_json "01/01/2025" reqC10wit =
      cotizar_json "01/01/2025" { reqC10wit with servicio := strLower reqC10wit.servicio } :=
  (servicio_case_insensitive "01/01/2025" reqC10wit (by decide)).2

end Cotizador
